import Mathlib

/-!
# Verification of the pybotvac client (`pybotvac/robot.py`)

A shallow embedding of the two components of `robot.py`:

* the request signer `Auth` (`Auth.__call__`), which HMAC-SHA256-signs the
  outgoing request and sets its `Date` and `Authorization` headers, and
* the command client `Robot`, which builds version-dependent JSON command
  payloads and sends them through `_message`.

Bytes are modelled as natural numbers below 256 in a `List Nat`; 32-bit
words as naturals reduced modulo `2 ^ 32`.  The network is modelled by an
explicit `respond : Payload → Response` function, and each client operation
returns the list of payloads it handed to `_message` (its send trace)
together with its outcome (`Except PyError Response`).
-/

namespace Pybotvac

/-! ## Bytes, hex and UTF-8 -/

/-- One 32-bit word: reduce a natural modulo `2 ^ 32`. -/
def w32 (n : Nat) : Nat := n % 4294967296

/-- Big-endian byte expansion of `n` into exactly `k` bytes. -/
def toBytesBE : Nat → Nat → List Nat
  | 0, _ => []
  | k + 1, n => toBytesBE k (n >>> 8) ++ [n % 256]

/-- The lowercase hexadecimal digit for `n < 16`. -/
def hexDigit (n : Nat) : Char :=
  if n < 10 then Char.ofNat (48 + n) else Char.ofNat (87 + n)

/-- Two lowercase hex digits of one byte. -/
def byteToHex (b : Nat) : String :=
  String.mk [hexDigit (b / 16 % 16), hexDigit (b % 16)]

/-- Lowercase hex encoding of a byte list: Python `hexdigest()`. -/
def hexdigest (bs : List Nat) : String :=
  String.join (bs.map byteToHex)

/-- UTF-8 encoding of one Unicode scalar value, 1 to 4 bytes. -/
def utf8EncodeChar (c : Char) : List Nat :=
  let n := c.toNat
  if n < 128 then [n]
  else if n < 2048 then [192 + n / 64, 128 + n % 64]
  else if n < 65536 then [224 + n / 4096, 128 + n / 64 % 64, 128 + n % 64]
  else [240 + n / 262144, 128 + n / 4096 % 64, 128 + n / 64 % 64, 128 + n % 64]

/-- UTF-8 encoding of a string: Python `str.encode('utf8')`. -/
def utf8Encode (s : String) : List Nat :=
  (s.data.map utf8EncodeChar).flatten

/-! ## SHA-256 (FIPS 180-4) -/

/-- Right rotation of a 32-bit word by `n` bits. -/
def rotr (n x : Nat) : Nat := w32 ((x >>> n) ||| (x <<< (32 - n)))

/-- Bitwise complement on 32 bits. -/
def not32 (x : Nat) : Nat := x ^^^ 4294967295

/-- SHA-256 choice function. -/
def ch (x y z : Nat) : Nat := (x &&& y) ^^^ (not32 x &&& z)

/-- SHA-256 majority function. -/
def maj (x y z : Nat) : Nat := (x &&& y) ^^^ (x &&& z) ^^^ (y &&& z)

/-- SHA-256 big sigma 0. -/
def bsig0 (x : Nat) : Nat := rotr 2 x ^^^ rotr 13 x ^^^ rotr 22 x

/-- SHA-256 big sigma 1. -/
def bsig1 (x : Nat) : Nat := rotr 6 x ^^^ rotr 11 x ^^^ rotr 25 x

/-- SHA-256 small sigma 0. -/
def ssig0 (x : Nat) : Nat := rotr 7 x ^^^ rotr 18 x ^^^ (x >>> 3)

/-- SHA-256 small sigma 1. -/
def ssig1 (x : Nat) : Nat := rotr 17 x ^^^ rotr 19 x ^^^ (x >>> 10)

/-- The 64 SHA-256 round constants. -/
def shaK : List Nat :=
  [0x428A2F98, 0x71374491, 0xB5C0FBCF, 0xE9B5DBA5, 0x3956C25B, 0x59F111F1,
   0x923F82A4, 0xAB1C5ED5, 0xD807AA98, 0x12835B01, 0x243185BE, 0x550C7DC3,
   0x72BE5D74, 0x80DEB1FE, 0x9BDC06A7, 0xC19BF174, 0xE49B69C1, 0xEFBE4786,
   0x0FC19DC6, 0x240CA1CC, 0x2DE92C6F, 0x4A7484AA, 0x5CB0A9DC, 0x76F988DA,
   0x983E5152, 0xA831C66D, 0xB00327C8, 0xBF597FC7, 0xC6E00BF3, 0xD5A79147,
   0x06CA6351, 0x14292967, 0x27B70A85, 0x2E1B2138, 0x4D2C6DFC, 0x53380D13,
   0x650A7354, 0x766A0ABB, 0x81C2C92E, 0x92722C85, 0xA2BFE8A1, 0xA81A664B,
   0xC24B8B70, 0xC76C51A3, 0xD192E819, 0xD6990624, 0xF40E3585, 0x106AA070,
   0x19A4C116, 0x1E376C08, 0x2748774C, 0x34B0BCB5, 0x391C0CB3, 0x4ED8AA4A,
   0x5B9CCA4F, 0x682E6FF3, 0x748F82EE, 0x78A5636F, 0x84C87814, 0x8CC70208,
   0x90BEFFFA, 0xA4506CEB, 0xBEF9A3F7, 0xC67178F2]

/-- The SHA-256 initial hash value. -/
def shaH0 : List Nat :=
  [0x6A09E667, 0xBB67AE85, 0x3C6EF372, 0xA54FF53A, 0x510E527F, 0x9B05688C,
   0x1F83D9AB, 0x5BE0CD19]

/-- Extend a message schedule by `n` further words (from 16 up to 64). -/
def extendSchedule : List Nat → Nat → List Nat
  | w, 0 => w
  | w, n + 1 =>
    let t := w.length
    let next := w32 (ssig1 (w.getD (t - 2) 0) + w.getD (t - 7) 0 +
                     ssig0 (w.getD (t - 15) 0) + w.getD (t - 16) 0)
    extendSchedule (w ++ [next]) n

/-- One SHA-256 round on the working variables `[a,b,c,d,e,f,g,h]`. -/
def sha256Round (st : List Nat) (k w : Nat) : List Nat :=
  match st with
  | [a, b, c, d, e, f, g, h] =>
    let t1 := w32 (h + bsig1 e + ch e f g + k + w)
    let t2 := w32 (bsig0 a + maj a b c)
    [w32 (t1 + t2), a, b, c, w32 (d + t1), e, f, g]
  | other => other

/-- Compress one 16-word block into the running hash value. -/
def sha256Block (h : List Nat) (block : List Nat) : List Nat :=
  let w := extendSchedule block 48
  let st := (shaK.zip w).foldl (fun st kw => sha256Round st kw.1 kw.2) h
  (h.zip st).map fun p => w32 (p.1 + p.2)

/-- SHA-256 padding: append `0x80`, zeros to 56 mod 64, then the 64-bit
big-endian bit length. -/
def padMessage (msg : List Nat) : List Nat :=
  msg ++ [128] ++ List.replicate ((119 - msg.length % 64) % 64) 0 ++
    toBytesBE 8 (8 * msg.length)

/-- Group bytes into big-endian 32-bit words. -/
def bytesToWords : List Nat → List Nat
  | a :: b :: c :: d :: rest =>
    (a * 16777216 + b * 65536 + c * 256 + d) :: bytesToWords rest
  | _ => []

/-- Split a word list into 16-word blocks. -/
def chunk16 : List Nat → List (List Nat)
  | [] => []
  | x :: xs => ((x :: xs).take 16) :: chunk16 ((x :: xs).drop 16)
termination_by l => l.length
decreasing_by simp [List.length_drop]; omega

/-- SHA-256 of a byte list, as its 32 digest bytes. -/
def sha256 (msg : List Nat) : List Nat :=
  let blocks := chunk16 (bytesToWords (padMessage msg))
  ((blocks.foldl sha256Block shaH0).map (toBytesBE 4)).flatten

/-! ## HMAC-SHA256 (RFC 2104), as Python `hmac.new(key, msg, 'sha256')` -/

/-- HMAC-SHA256 digest bytes of `msg` under `key` (block size 64). -/
def hmacSha256 (key msg : List Nat) : List Nat :=
  let k0 := if key.length > 64 then sha256 key else key
  let kpad := k0 ++ List.replicate (64 - k0.length) 0
  sha256 ((kpad.map fun b => b ^^^ 92) ++
          sha256 ((kpad.map fun b => b ^^^ 54) ++ msg))

/-! ## The signer: class `Auth` -/

/-- An outgoing HTTP request as the signer sees it.  Headers are a finite
map from header name to value, modelled as a function (the source's
`request.headers` dict); `body` holds the request body as text — the source
stores the UTF-8 bytes and recovers this text with `.decode('utf8')`. -/
structure Request where
  headers : String → Option String
  body : String

/-- Set (or overwrite) one header: `request.headers[k] = v`. -/
def setHeader (h : String → Option String) (k v : String) : String → Option String :=
  fun k2 => if k2 = k then some v else h k2

/-- The credentials held by `Auth.__init__`. -/
structure Auth where
  serial : String
  secret : String

/-- The hex signature computed inside `Auth.__call__`: HMAC-SHA256, keyed by
the UTF-8 encoded secret, of the newline-join of the lowercased serial, the
date string and the UTF-8 decoded body, hex-encoded. -/
def Auth.signature (a : Auth) (date body : String) : String :=
  hexdigest (hmacSha256 (utf8Encode a.secret)
    (utf8Encode (String.intercalate "\n" [a.serial.toLower, date, body])))

/-- `Auth.__call__(request)`: signs the request and sets its `Date` and
`Authorization` headers.  The source computes `date` from the current UTC
time with `time.strftime(...) + ' GMT'`; the clock reading is modelled as
the explicit `date` parameter. -/
def Auth.call (a : Auth) (date : String) (req : Request) : Request :=
  { headers :=
      setHeader (setHeader req.headers "Date" date)
        "Authorization" ("NEATOAPP " ++ a.signature date req.body),
    body := req.body }

/-! ## The command client: class `Robot` -/

/-- Parsed JSON values, for server response bodies (`response.json()`). -/
inductive Json where
  | null : Json
  | bool (b : Bool) : Json
  | num (n : Int) : Json
  | str (s : String) : Json
  | arr (elems : List Json) : Json
  | obj (fields : List (String × Json)) : Json

/-- A command payload `{reqId, cmd, params?}` as built by the `Robot`
methods; `params` is the optional ordered field list of the nested
`'params'` dict (all its values in the source are ints). -/
structure Payload where
  reqId : String
  cmd : String
  params : Option (List (String × Int))
deriving DecidableEq

/-- A server response, as `requests.post` returns it: an HTTP status code
and the parsed JSON body that `.json()` yields. -/
structure Response where
  status : Nat
  json : Json

/-- The exceptions the client can raise: a plain `Exception(msg)` from the
version checks, `requests.HTTPError` from `raise_for_status()`, and
`KeyError` from a missing dict key. -/
inductive PyError where
  | exception (msg : String) : PyError
  | httpStatus (status : Nat) : PyError
  | keyError (key : String) : PyError
deriving DecidableEq

/-- The state a `Robot` instance holds after `__init__`: identity fields
plus `availableServices`, the service-name-to-version dict the constructor
reads from the robot state. -/
structure Robot where
  name : String
  serial : String
  secret : String
  traits : List String
  availableServices : List (String × String)

/-- The derived endpoint URL set in `Robot.__init__`. -/
def Robot.url (r : Robot) : String :=
  "https://nucleo.neatocloud.com/vendors/neato/robots/" ++ r.serial ++ "/messages"

/-- The network: what the server answers to a posted payload. -/
def Net : Type := Payload → Response

/-- `Robot._message(json)`: posts the payload and calls
`raise_for_status()`, which raises `HTTPError` exactly when the status is a
4xx or 5xx code.  Returns the send trace (here: the one posted payload)
paired with the outcome. -/
def Robot.message (_r : Robot) (payload : Payload) (respond : Net) :
    List Payload × Except PyError Response :=
  let response := respond payload
  ([payload],
   if 400 ≤ response.status ∧ response.status < 600 then
     Except.error (PyError.httpStatus response.status)
   else Except.ok response)

/-- The message of the `Exception` raised on an unknown `houseCleaning`
service version. -/
def unknownVersionMsg (serviceVersion : String) : String :=
  "Version " ++ serviceVersion ++ " of service houseCleaning is not known"

/-- `Robot.start_cleaning(mode, navigationMode)`: payload shape dispatched
on `availableServices['houseCleaning']`; unknown versions raise before any
send.  A missing `houseCleaning` key is Python's `KeyError`. -/
def Robot.start_cleaning (r : Robot) (mode navigationMode : Int) (respond : Net) :
    List Payload × Except PyError Response :=
  match r.availableServices.lookup "houseCleaning" with
  | none => ([], Except.error (PyError.keyError "houseCleaning"))
  | some serviceVersion =>
    if serviceVersion = "basic-1" then
      r.message ⟨"1", "startCleaning",
        some [("category", 2), ("mode", mode), ("modifier", 1)]⟩ respond
    else if serviceVersion = "minimal-2" then
      r.message ⟨"1", "startCleaning",
        some [("category", 2), ("navigationMode", navigationMode)]⟩ respond
    else if serviceVersion = "basic-2" then
      r.message ⟨"1", "startCleaning",
        some [("category", 2), ("mode", mode), ("modifier", 1),
              ("navigationMode", navigationMode)]⟩ respond
    else ([], Except.error (PyError.exception (unknownVersionMsg serviceVersion)))

/-- `Robot.start_cleaning()` with no arguments: the source's parameter
defaults are `mode=2` and `navigationMode=2`. -/
def Robot.start_cleaning_default (r : Robot) (respond : Net) :
    List Payload × Except PyError Response :=
  r.start_cleaning 2 2 respond

/-- The known `houseCleaning` versions checked by the four fixed commands. -/
def knownVersions : List String := ["basic-1", "minimal-2", "basic-2"]

/-- `Robot.pause_cleaning()`. -/
def Robot.pause_cleaning (r : Robot) (respond : Net) :
    List Payload × Except PyError Response :=
  match r.availableServices.lookup "houseCleaning" with
  | none => ([], Except.error (PyError.keyError "houseCleaning"))
  | some serviceVersion =>
    if serviceVersion ∉ knownVersions then
      ([], Except.error (PyError.exception (unknownVersionMsg serviceVersion)))
    else r.message ⟨"1", "pauseCleaning", none⟩ respond

/-- `Robot.resume_cleaning()`. -/
def Robot.resume_cleaning (r : Robot) (respond : Net) :
    List Payload × Except PyError Response :=
  match r.availableServices.lookup "houseCleaning" with
  | none => ([], Except.error (PyError.keyError "houseCleaning"))
  | some serviceVersion =>
    if serviceVersion ∉ knownVersions then
      ([], Except.error (PyError.exception (unknownVersionMsg serviceVersion)))
    else r.message ⟨"1", "resumeCleaning", none⟩ respond

/-- `Robot.stop_cleaning()`. -/
def Robot.stop_cleaning (r : Robot) (respond : Net) :
    List Payload × Except PyError Response :=
  match r.availableServices.lookup "houseCleaning" with
  | none => ([], Except.error (PyError.keyError "houseCleaning"))
  | some serviceVersion =>
    if serviceVersion ∉ knownVersions then
      ([], Except.error (PyError.exception (unknownVersionMsg serviceVersion)))
    else r.message ⟨"1", "stopCleaning", none⟩ respond

/-- `Robot.send_to_base()`. -/
def Robot.send_to_base (r : Robot) (respond : Net) :
    List Payload × Except PyError Response :=
  match r.availableServices.lookup "houseCleaning" with
  | none => ([], Except.error (PyError.keyError "houseCleaning"))
  | some serviceVersion =>
    if serviceVersion ∉ knownVersions then
      ([], Except.error (PyError.exception (unknownVersionMsg serviceVersion)))
    else r.message ⟨"1", "sendToBase", none⟩ respond

/-- `Robot.get_robot_state()`: posts `getRobotState` and returns
`self._message(...)`, i.e. the response object itself. -/
def Robot.get_robot_state (r : Robot) (respond : Net) :
    List Payload × Except PyError Response :=
  r.message ⟨"1", "getRobotState", none⟩ respond

/-- `Robot.enable_schedule()`. -/
def Robot.enable_schedule (r : Robot) (respond : Net) :
    List Payload × Except PyError Response :=
  r.message ⟨"1", "enableSchedule", none⟩ respond

/-- `Robot.disable_schedule()`. -/
def Robot.disable_schedule (r : Robot) (respond : Net) :
    List Payload × Except PyError Response :=
  r.message ⟨"1", "disableSchedule", none⟩ respond

/-- `Robot.get_schedule()`. -/
def Robot.get_schedule (r : Robot) (respond : Net) :
    List Payload × Except PyError Response :=
  r.message ⟨"1", "getSchedule", none⟩ respond

/-- The `schedule_enabled` setter: enable or disable by the boolean. -/
def Robot.set_schedule_enabled (r : Robot) (enable : Bool) (respond : Net) :
    List Payload × Except PyError Response :=
  if enable then r.enable_schedule respond else r.disable_schedule respond

/-- The `state` property: `self.get_robot_state().json()` — the parsed JSON
body of the response, or the propagated error. -/
def Robot.state (r : Robot) (respond : Net) :
    List Payload × Except PyError Json :=
  let result := r.get_robot_state respond
  (result.1, result.2.map Response.json)

/-! ## Sample instances used by the witnesses -/

/-- A server that always answers 200 with a null body. -/
def respond200 : Net := fun _ => { status := 200, json := Json.null }

/-- A server that always answers 201 with a null body. -/
def respond201 : Net := fun _ => { status := 201, json := Json.null }

/-- A robot whose `houseCleaning` service has version `basic-1`. -/
def robotB1 : Robot :=
  { name := "", serial := "OPS01234-0123456789AB", secret := "mysecret",
    traits := [], availableServices := [("houseCleaning", "basic-1")] }

/-- A robot whose `houseCleaning` service has version `minimal-2`. -/
def robotM2 : Robot :=
  { robotB1 with availableServices := [("houseCleaning", "minimal-2")] }

/-- A robot whose `houseCleaning` service has version `basic-2`. -/
def robotB2 : Robot :=
  { robotB1 with availableServices := [("houseCleaning", "basic-2")] }

/-- A robot advertising the unknown `houseCleaning` version `weird-9`. -/
def robotW9 : Robot :=
  { robotB1 with availableServices := [("houseCleaning", "weird-9")] }

/-- A sample outgoing request carrying only the client's fixed
`Accept` header. -/
def sampleReq : Request :=
  { headers := fun k =>
      if k = "Accept" then some "application/vnd.neato.nucleo.v1" else none,
    body := "\x7b\"reqId\": \"1\", \"cmd\": \"getRobotState\"\x7d" }

/-! ## Theorems -/

/-- Claim C1: for every serial, secret, timestamp and request body, the
signer sets the request's `Date` header to the timestamp string and its
`Authorization` header to `"NEATOAPP "` followed by the lowercase-hex
HMAC-SHA256, keyed by the UTF-8 encoded secret, of the newline-join of the
lowercased serial, the timestamp and the UTF-8 decoded body. -/
theorem auth_call_sets_headers (serial secret date : String) (req : Request) :
    ((Auth.mk serial secret).call date req).headers "Date" = some date ∧
    ((Auth.mk serial secret).call date req).headers "Authorization" =
      some ("NEATOAPP " ++ hexdigest (hmacSha256 (utf8Encode secret)
        (utf8Encode (String.intercalate "\n"
          [serial.toLower, date, req.body])))) := by
  constructor
  · simp [Auth.call, setHeader]
  · simp [Auth.call, setHeader, Auth.signature]

/-- Claim C8: the signer touches only the `Date` and `Authorization`
headers — any other header keeps its previous value — and leaves the
request body unchanged. -/
theorem auth_call_frame (a : Auth) (date : String) (req : Request)
    (k : String) (hd : k ≠ "Date") (ha : k ≠ "Authorization") :
    (a.call date req).headers k = req.headers k ∧
    (a.call date req).body = req.body := by
  constructor
  · simp [Auth.call, setHeader, hd, ha]
  · rfl

/-- Witness for C8 at a concrete request and the `Accept` header. -/
theorem auth_call_frame_witness :
    ("Accept" ≠ "Date" ∧ "Accept" ≠ "Authorization") ∧
    (((Auth.mk "OPS01234" "mysecret").call
        "Fri, 03 Apr 2020 09:12:33 GMT" sampleReq).headers "Accept" =
        sampleReq.headers "Accept" ∧
     ((Auth.mk "OPS01234" "mysecret").call
        "Fri, 03 Apr 2020 09:12:33 GMT" sampleReq).body = sampleReq.body) :=
  ⟨⟨by decide, by decide⟩,
   auth_call_frame (Auth.mk "OPS01234" "mysecret")
     "Fri, 03 Apr 2020 09:12:33 GMT" sampleReq "Accept"
     (by decide) (by decide)⟩

/-- Claim C9: the signature is a deterministic function of serial, secret,
timestamp and body — two computations on equal inputs agree. -/
theorem signature_deterministic
    (serial secret date body serial2 secret2 date2 body2 : String)
    (hserial : serial = serial2) (hsecret : secret = secret2)
    (hdate : date = date2) (hbody : body = body2) :
    (Auth.mk serial secret).signature date body =
      (Auth.mk serial2 secret2).signature date2 body2 := by
  subst hserial hsecret hdate hbody
  rfl

/-- Witness for C9 at concrete credentials, timestamp and body. -/
theorem signature_deterministic_witness :
    ("OPS01234" : String) = "OPS01234" ∧
    (Auth.mk "OPS01234" "mysecret").signature
        "Fri, 03 Apr 2020 09:12:33 GMT" "\x7b\x7d" =
      (Auth.mk "OPS01234" "mysecret").signature
        "Fri, 03 Apr 2020 09:12:33 GMT" "\x7b\x7d" :=
  ⟨rfl, signature_deterministic "OPS01234" "mysecret"
    "Fri, 03 Apr 2020 09:12:33 GMT" "\x7b\x7d"
    "OPS01234" "mysecret" "Fri, 03 Apr 2020 09:12:33 GMT" "\x7b\x7d"
    rfl rfl rfl rfl⟩

/-- Claim C2: `start_cleaning` builds its payload by case on the
`houseCleaning` service version — `basic-1` sends category, mode and
modifier and omits navigationMode; `minimal-2` sends category and
navigationMode only; `basic-2` sends all four params. -/
theorem start_cleaning_payload_by_version
    (r : Robot) (mode navigationMode : Int) (respond : Net) :
    (r.availableServices.lookup "houseCleaning" = some "basic-1" →
      (r.start_cleaning mode navigationMode respond).1 =
        [⟨"1", "startCleaning",
          some [("category", 2), ("mode", mode), ("modifier", 1)]⟩]) ∧
    (r.availableServices.lookup "houseCleaning" = some "minimal-2" →
      (r.start_cleaning mode navigationMode respond).1 =
        [⟨"1", "startCleaning",
          some [("category", 2), ("navigationMode", navigationMode)]⟩]) ∧
    (r.availableServices.lookup "houseCleaning" = some "basic-2" →
      (r.start_cleaning mode navigationMode respond).1 =
        [⟨"1", "startCleaning",
          some [("category", 2), ("mode", mode), ("modifier", 1),
                ("navigationMode", navigationMode)]⟩]) := by
  refine ⟨fun h => ?_, fun h => ?_, fun h => ?_⟩ <;>
    simp [Robot.start_cleaning, h, Robot.message]

/-- Witness for C2: each of the three versions at a concrete robot. -/
theorem start_cleaning_payload_witness :
    (robotB1.availableServices.lookup "houseCleaning" = some "basic-1" ∧
      (robotB1.start_cleaning 1 2 respond200).1 =
        [⟨"1", "startCleaning",
          some [("category", 2), ("mode", 1), ("modifier", 1)]⟩]) ∧
    (robotM2.availableServices.lookup "houseCleaning" = some "minimal-2" ∧
      (robotM2.start_cleaning 1 2 respond200).1 =
        [⟨"1", "startCleaning",
          some [("category", 2), ("navigationMode", 2)]⟩]) ∧
    (robotB2.availableServices.lookup "houseCleaning" = some "basic-2" ∧
      (robotB2.start_cleaning 1 2 respond200).1 =
        [⟨"1", "startCleaning",
          some [("category", 2), ("mode", 1), ("modifier", 1),
                ("navigationMode", 2)]⟩]) :=
  ⟨⟨by decide, (start_cleaning_payload_by_version robotB1 1 2 respond200).1
      (by decide)⟩,
   ⟨by decide, (start_cleaning_payload_by_version robotM2 1 2 respond200).2.1
      (by decide)⟩,
   ⟨by decide, (start_cleaning_payload_by_version robotB2 1 2 respond200).2.2
      (by decide)⟩⟩

/-- Claim C3: on a `houseCleaning` version outside the three known ones,
`start_cleaning` raises the unknown-version `Exception` carrying the
version string, and its send trace is empty — nothing reaches the network. -/
theorem start_cleaning_unknown_version
    (r : Robot) (mode navigationMode : Int) (respond : Net) (v : String)
    (h : r.availableServices.lookup "houseCleaning" = some v)
    (h1 : v ≠ "basic-1") (h2 : v ≠ "minimal-2") (h3 : v ≠ "basic-2") :
    r.start_cleaning mode navigationMode respond =
      ([], Except.error (PyError.exception
        ("Version " ++ v ++ " of service houseCleaning is not known"))) := by
  simp [Robot.start_cleaning, h, h1, h2, h3, unknownVersionMsg]

/-- Witness for C3 at the unknown version string `weird-9`. -/
theorem start_cleaning_unknown_version_witness :
    (robotW9.availableServices.lookup "houseCleaning" = some "weird-9" ∧
      ("weird-9" : String) ≠ "basic-1" ∧ ("weird-9" : String) ≠ "minimal-2" ∧
      ("weird-9" : String) ≠ "basic-2") ∧
    robotW9.start_cleaning 2 2 respond200 =
      ([], Except.error (PyError.exception
        "Version weird-9 of service houseCleaning is not known")) :=
  ⟨⟨by decide, by decide, by decide, by decide⟩,
   start_cleaning_unknown_version robotW9 2 2 respond200 "weird-9"
     (by decide) (by decide) (by decide) (by decide)⟩

/-- Claim C4: with a known `houseCleaning` version, each of
`pause_cleaning`, `resume_cleaning`, `stop_cleaning` and `send_to_base`
sends exactly one message with the matching command and no params; with an
unknown version, each raises the unknown-version `Exception` with an empty
send trace. -/
theorem fixed_commands_by_version (r : Robot) (respond : Net) (v : String)
    (h : r.availableServices.lookup "houseCleaning" = some v) :
    (v ∈ knownVersions →
      (r.pause_cleaning respond).1 = [⟨"1", "pauseCleaning", none⟩] ∧
      (r.resume_cleaning respond).1 = [⟨"1", "resumeCleaning", none⟩] ∧
      (r.stop_cleaning respond).1 = [⟨"1", "stopCleaning", none⟩] ∧
      (r.send_to_base respond).1 = [⟨"1", "sendToBase", none⟩]) ∧
    (v ∉ knownVersions →
      r.pause_cleaning respond = ([], Except.error (PyError.exception
        ("Version " ++ v ++ " of service houseCleaning is not known"))) ∧
      r.resume_cleaning respond = ([], Except.error (PyError.exception
        ("Version " ++ v ++ " of service houseCleaning is not known"))) ∧
      r.stop_cleaning respond = ([], Except.error (PyError.exception
        ("Version " ++ v ++ " of service houseCleaning is not known"))) ∧
      r.send_to_base respond = ([], Except.error (PyError.exception
        ("Version " ++ v ++ " of service houseCleaning is not known")))) := by
  constructor
  · intro hv
    refine ⟨?_, ?_, ?_, ?_⟩ <;>
      simp [Robot.pause_cleaning, Robot.resume_cleaning, Robot.stop_cleaning,
        Robot.send_to_base, h, hv, Robot.message]
  · intro hv
    refine ⟨?_, ?_, ?_, ?_⟩ <;>
      simp [Robot.pause_cleaning, Robot.resume_cleaning, Robot.stop_cleaning,
        Robot.send_to_base, h, hv, unknownVersionMsg]

/-- Witness for C4: the known case at version `basic-1` and the unknown
case at version `weird-9`. -/
theorem fixed_commands_by_version_witness :
    (robotB1.availableServices.lookup "houseCleaning" = some "basic-1" ∧
      ("basic-1" : String) ∈ knownVersions ∧
      (robotB1.pause_cleaning respond200).1 = [⟨"1", "pauseCleaning", none⟩]) ∧
    (robotW9.availableServices.lookup "houseCleaning" = some "weird-9" ∧
      ("weird-9" : String) ∉ knownVersions ∧
      robotW9.send_to_base respond200 = ([], Except.error (PyError.exception
        "Version weird-9 of service houseCleaning is not known"))) :=
  ⟨⟨by decide, by decide,
    ((fixed_commands_by_version robotB1 respond200 "basic-1" (by decide)).1
      (by decide)).1⟩,
   ⟨by decide, by decide,
    ((fixed_commands_by_version robotW9 respond200 "weird-9" (by decide)).2
      (by decide)).2.2.2⟩⟩

/-- Claim C10: calling `start_cleaning` without arguments uses the defaults
`mode = 2` and `navigationMode = 2`, so under version `basic-2` the payload
params are category 2, mode 2, modifier 1, navigationMode 2. -/
theorem start_cleaning_defaults (r : Robot) (respond : Net)
    (h : r.availableServices.lookup "houseCleaning" = some "basic-2") :
    (r.start_cleaning_default respond).1 =
      [⟨"1", "startCleaning",
        some [("category", 2), ("mode", 2), ("modifier", 1),
              ("navigationMode", 2)]⟩] := by
  simp [Robot.start_cleaning_default, Robot.start_cleaning, h, Robot.message]

/-- Witness for C10 at a concrete `basic-2` robot. -/
theorem start_cleaning_defaults_witness :
    robotB2.availableServices.lookup "houseCleaning" = some "basic-2" ∧
    (robotB2.start_cleaning_default respond200).1 =
      [⟨"1", "startCleaning",
        some [("category", 2), ("mode", 2), ("modifier", 1),
              ("navigationMode", 2)]⟩] :=
  ⟨by decide, start_cleaning_defaults robotB2 respond200 (by decide)⟩

/-- Counterexample to claim C5: `get_robot_state()` does not return the
parsed JSON of the server response — it returns `self._message(...)`, the
response object itself.  Two servers whose responses carry the same parsed
JSON body but different 2xx statuses make `get_robot_state` return
different values, which is impossible for a function of the parsed JSON. -/
theorem get_robot_state_counterexample :
    (respond200 ⟨"1", "getRobotState", none⟩).json =
      (respond201 ⟨"1", "getRobotState", none⟩).json ∧
    Robot.get_robot_state robotB1 respond200 ≠
      Robot.get_robot_state robotB1 respond201 := by
  constructor
  · rfl
  · intro h
    have h2 := congrArg (fun x => x.2.map Response.status) h
    simp [Robot.get_robot_state, Robot.message, respond200, respond201,
      Except.map] at h2

/-- Claim C5 as amended: `get_robot_state()` sends exactly one message with
cmd `getRobotState`; on a non-error status it returns the server response
object, and the `state` property returns that response's parsed JSON. -/
theorem get_robot_state_amended (r : Robot) (respond : Net)
    (h : (respond ⟨"1", "getRobotState", none⟩).status < 400 ∨
         600 ≤ (respond ⟨"1", "getRobotState", none⟩).status) :
    (r.get_robot_state respond).1 = [⟨"1", "getRobotState", none⟩] ∧
    (r.get_robot_state respond).2 =
      Except.ok (respond ⟨"1", "getRobotState", none⟩) ∧
    (r.state respond).2 =
      Except.ok (respond ⟨"1", "getRobotState", none⟩).json := by
  have hcond : ¬(400 ≤ (respond ⟨"1", "getRobotState", none⟩).status ∧
      (respond ⟨"1", "getRobotState", none⟩).status < 600) := by
    rcases h with h | h <;> omega
  refine ⟨rfl, ?_, ?_⟩ <;>
    simp [Robot.get_robot_state, Robot.state, Robot.message, hcond, Except.map]

/-- Witness for the amended C5 at a concrete 200-status server. -/
theorem get_robot_state_amended_witness :
    ((respond200 ⟨"1", "getRobotState", none⟩).status < 400 ∨
      600 ≤ (respond200 ⟨"1", "getRobotState", none⟩).status) ∧
    ((robotB1.get_robot_state respond200).1 = [⟨"1", "getRobotState", none⟩] ∧
     (robotB1.get_robot_state respond200).2 =
       Except.ok (respond200 ⟨"1", "getRobotState", none⟩) ∧
     (robotB1.state respond200).2 =
       Except.ok (respond200 ⟨"1", "getRobotState", none⟩).json) :=
  ⟨Or.inl (by decide),
   get_robot_state_amended robotB1 respond200 (Or.inl (by decide))⟩

/-- Claim C6: writing `schedule_enabled` with true sends exactly one
`enableSchedule` command and nothing else; writing it with false sends
exactly one `disableSchedule` command and nothing else. -/
theorem schedule_enabled_setter (r : Robot) (respond : Net) :
    (r.set_schedule_enabled true respond).1 =
      [⟨"1", "enableSchedule", none⟩] ∧
    (r.set_schedule_enabled false respond).1 =
      [⟨"1", "disableSchedule", none⟩] :=
  ⟨rfl, rfl⟩

/-- Claim C7: every payload any public operation hands to `_message`
carries `reqId = "1"`. -/
theorem all_requests_reqId_one
    (r : Robot) (mode navigationMode : Int) (respond : Net) :
    ((r.start_cleaning mode navigationMode respond).1.all
      fun p => p.reqId == "1") = true ∧
    ((r.pause_cleaning respond).1.all fun p => p.reqId == "1") = true ∧
    ((r.resume_cleaning respond).1.all fun p => p.reqId == "1") = true ∧
    ((r.stop_cleaning respond).1.all fun p => p.reqId == "1") = true ∧
    ((r.send_to_base respond).1.all fun p => p.reqId == "1") = true ∧
    ((r.get_robot_state respond).1.all fun p => p.reqId == "1") = true ∧
    ((r.enable_schedule respond).1.all fun p => p.reqId == "1") = true ∧
    ((r.disable_schedule respond).1.all fun p => p.reqId == "1") = true ∧
    ((r.get_schedule respond).1.all fun p => p.reqId == "1") = true := by
  refine ⟨?_, ?_, ?_, ?_, ?_, rfl, rfl, rfl, rfl⟩ <;>
    cases h : r.availableServices.lookup "houseCleaning" with
    | none =>
      simp [Robot.start_cleaning, Robot.pause_cleaning, Robot.resume_cleaning,
        Robot.stop_cleaning, Robot.send_to_base, h]
    | some v =>
      simp only [Robot.start_cleaning, Robot.pause_cleaning,
        Robot.resume_cleaning, Robot.stop_cleaning, Robot.send_to_base, h]
      split_ifs <;> simp [Robot.message]

end Pybotvac
